import Mathlib

/-!
Verification of the geopolymer alkali-activator calculator
(`src/geopolymer-alkali-activator-calculate.py`).

The core of the program is a closed-form inverse mass-balance solver
(`GeoActivatorApp._compute`), an input validator
(`GeoActivatorApp._collect_inputs`) with two numeric parsers
(`parse_percent`, `parse_float`), and a fixed three-row spreadsheet
export (`GeoActivatorApp._export_excel`).

Embedding conventions:
* Python floats are modelled by exact rationals `ℚ`; the float sentinel
  `nan` (returned by the parsers on empty or malformed text, and produced
  by the guarded divisions of the derived-quantity phase) is modelled by
  `none` in `Option ℚ`.
* Python comparisons involving `nan` are false; the helpers `pyLe`,
  `pyInUnit`, `pySumGe1` reproduce this on `Option ℚ`.
* The two fallible entry points return `Except String _`, the error
  carrying exactly the message the Python code reports.
-/

/-- Constant `K62_60 = 62.0/60.0` (line 41). -/
def K62_60 : ℚ := 62 / 60

/-- Constant `NAOH_TO_NA2O = 62.0/80.0` (line 42). -/
def NAOH_TO_NA2O : ℚ := 62 / 80

/-- The `Inputs` dataclass (lines 87-94): solid mass A, silicate-solution
SiO2 fraction C, Na2O fraction D, target modulus O, target alkali
equivalent Q, target solid/liquid ratio R. -/
structure Inputs where
  A : ℚ
  C : ℚ
  D : ℚ
  O : ℚ
  Q : ℚ
  R : ℚ
deriving DecidableEq, Repr

/-- The `Results` dataclass (lines 97-116), field order as in the source.
Fields that the solver guards with an `if ... else float("nan")` are
`Option ℚ` (`none` = nan); the rest are plain rationals. -/
structure Results where
  B : ℚ
  E : ℚ
  F : ℚ
  G : Option ℚ
  H : Option ℚ
  I : Option ℚ
  J : ℚ
  K : Option ℚ
  L : ℚ
  M : ℚ
  N : ℚ
  O : Option ℚ
  P : ℚ
  Q : ℚ
  R : Option ℚ
deriving DecidableEq, Repr

/-- Domain of a valid `Inputs` as established by the validator
(`_collect_inputs`, lines 357-366): all fields in range and `C + D < 1`. -/
def Inputs.valid (i : Inputs) : Prop :=
  0 < i.A ∧ 0 < i.C ∧ i.C < 1 ∧ 0 < i.D ∧ i.D < 1 ∧
    0 < i.O ∧ 0 < i.Q ∧ 0 < i.R ∧ i.C + i.D < 1

instance (i : Inputs) : Decidable i.valid := by
  unfold Inputs.valid; infer_instance

/-! ### Numeric parsing (`parse_percent`, `parse_float`, lines 62-84) -/

/-- Numeric value of a list of decimal digit characters. -/
def digitsToNat (cs : List Char) : ℕ :=
  cs.foldl (fun a c => 10 * a + (c.toNat - 48)) 0

/-- Python `str.strip()`: drop whitespace from both ends. -/
def stripChars (cs : List Char) : List Char :=
  ((cs.dropWhile Char.isWhitespace).reverse.dropWhile Char.isWhitespace).reverse

/-- Model of the numeric parsing done by the builtin `float(s)` on the
plain decimal literals `[+|-] digits [. digits]` (the only shapes the
form's `QDoubleValidator` admits); anything else, including the empty
string, is the not-a-number sentinel `none`. -/
def decimalOfChars (cs : List Char) : Option ℚ :=
  let core : List Char → Option ℚ := fun ds =>
    let ip := ds.takeWhile Char.isDigit
    let rest := ds.dropWhile Char.isDigit
    match rest with
    | [] => if ip.isEmpty then none else some (digitsToNat ip)
    | '.' :: rest2 =>
      let fp := rest2.takeWhile Char.isDigit
      let rest3 := rest2.dropWhile Char.isDigit
      if rest3.isEmpty ∧ ¬(ip.isEmpty ∧ fp.isEmpty) then
        some ((digitsToNat ip : ℚ) + (digitsToNat fp : ℚ) / (10 ^ fp.length))
      else none
    | _ => none
  match cs with
  | '-' :: ds => (core ds).map Neg.neg
  | '+' :: ds => core ds
  | ds => core ds

/-- Model of `float(value_str.strip())`: strip, then parse; `none`
models the `nan` sentinel returned on empty or malformed text. -/
def pyFloat (s : String) : Option ℚ :=
  decimalOfChars (stripChars s.toList)

/-- Parser `parse_percent` (lines 62-73): strip, parse, and divide by
100 when the parsed value exceeds 1; values not above 1 are left
unchanged. -/
def parse_percent (s : String) : Option ℚ :=
  match pyFloat s with
  | none => none
  | some v => some (if 1 < v then v / 100 else v)

/-- Parser `parse_float` (lines 76-83): strip and parse, `none` for
nan. -/
def parse_float (s : String) : Option ℚ :=
  pyFloat s

/-! ### Validator (`_collect_inputs`, lines 349-369) -/

/-- Python `x <= c` where `x` may be nan: false on nan. -/
def pyLe (x : Option ℚ) (c : ℚ) : Bool :=
  match x with
  | some v => v ≤ c
  | none => false

/-- Python chained `0 < x < 1` where `x` may be nan: false on nan. -/
def pyInUnit (x : Option ℚ) : Bool :=
  match x with
  | some v => 0 < v ∧ v < 1
  | none => false

/-- Python `x + y >= 1` where either side may be nan: false on nan. -/
def pySumGe1 (x y : Option ℚ) : Bool :=
  match x, y with
  | some a, some b => 1 ≤ a + b
  | _, _ => false

def msg_nan : String := "存在空值或非数字输入。"
def msg_A : String := "原料体系总质量 A 必须 > 0。"
def msg_C : String := "水玻璃二氧化硅百分比 C 需在 (0,1) 内（可输入 0~100，将自动换算）。"
def msg_D : String := "水玻璃氧化钠百分比 D 需在 (0,1) 内（可输入 0~100，将自动换算）。"
def msg_O : String := "目标模数 O 必须 > 0。"
def msg_Q : String := "最终碱当量 Q 必须 > 0。"
def msg_R : String := "固液比 R 必须 > 0。"
def msg_CD : String := "水玻璃中 SiO2 与 Na2O 百分比之和需小于 100%。"

/-- The `err` list built by `_collect_inputs` (lines 357-366): every
violated rule appends its message, in the fixed source order, with no
short-circuiting. -/
def collect_errs (A C D O Qv R : Option ℚ) : List String :=
  (if A.isNone || C.isNone || D.isNone || O.isNone || Qv.isNone || R.isNone
    then [msg_nan] else []) ++
  (if pyLe A 0 then [msg_A] else []) ++
  (if !pyInUnit C then [msg_C] else []) ++
  (if !pyInUnit D then [msg_D] else []) ++
  (if pyLe O 0 then [msg_O] else []) ++
  (if pyLe Qv 0 then [msg_Q] else []) ++
  (if pyLe R 0 then [msg_R] else []) ++
  (if pySumGe1 C D then [msg_CD] else [])

/-- The error list of `_collect_inputs` on the six raw text fields. -/
def errsOf (sA sC sD sO sQ sR : String) : List String :=
  collect_errs (parse_float sA) (parse_percent sC) (parse_percent sD)
    (parse_float sO) (parse_float sQ) (parse_float sR)

/-- Validator `_collect_inputs` (lines 349-369): parse the six raw fields, collect
all rule violations, and return a typed `Inputs` exactly when the list is
empty, otherwise the messages joined by the full-width semicolon.  (When
the list is empty rule 1 guarantees every parse succeeded, so the
fallback arm of the match is unreachable on an empty list.) -/
def collect_inputs (sA sC sD sO sQ sR : String) : Except String Inputs :=
  match errsOf sA sC sD sO sQ sR,
      parse_float sA, parse_percent sC, parse_percent sD,
      parse_float sO, parse_float sQ, parse_float sR with
  | [], some a, some c, some d, some o, some q, some r =>
    .ok ⟨a, c, d, o, q, r⟩
  | errs, _, _, _, _, _, _ => .error (String.intercalate "；" errs)

/-! ### Solver (`_compute`, lines 371-392) -/

def msg_divC : String := "C=0，无法计算 B。"
def msg_nanBEF : String := "出现 NaN 结果，请检查输入。"
def msg_Ble0 : String := "反算得到 B≤0，请调整目标参数（可能 O、Q 过小或 C 过大）。"
def msg_Elt0 : String := "反算得到 E<0，请调整目标参数（可能 Q 偏小或 D 偏大）。"
def msg_Flt0 : String := "反算得到 F<0，请调整目标参数或固液比 R。"

/-- Primary unknown `B = (O * Qv * A) / (C * K62_60)` (line 374). -/
def Bf (i : Inputs) : ℚ := (i.O * i.Q * i.A) / (i.C * K62_60)

/-- Primary unknown `E = (Qv * A - B * D) / NAOH_TO_NA2O` (line 375). -/
def Ef (i : Inputs) : ℚ := (i.Q * i.A - Bf i * i.D) / NAOH_TO_NA2O

/-- Primary unknown `F = A / R - (B + E)` (line 376). -/
def Ff (i : Inputs) : ℚ := i.A / i.R - (Bf i + Ef i)

/-- Derived-quantity phase of `_compute` (lines 382-392), executed only
once B, E, F pass the feasibility gate. -/
def mkResults (i : Inputs) : Results :=
  let B := Bf i
  let E := Ef i
  let F := Ff i
  let L := B * i.C
  let M := B * i.D
  let N := E * NAOH_TO_NA2O
  let J := B + E
  let G := if 0 < B + E then some (L / (B + E)) else none
  let H := if 0 < B + E then some ((M + N) / (B + E)) else none
  let I := match G, H with
    | some g, some h =>
      some (1 / ((1 - g - h) / (0.998 : ℚ) + g / (2.2 : ℚ) + h / (2.27 : ℚ)))
    | _, _ => none
  let K := if 0 < M then some ((L / 60) / (M / 62)) else none
  let Ob := if 0 < M + N then some ((L / 60) / (M / 62 + N / 62)) else none
  let P := M / i.A
  let Qb := (M + N) / i.A
  let Rb := if 0 < J + F then some (i.A / (J + F)) else none
  ⟨B, E, F, G, H, I, J, K, L, M, N, Ob, P, Qb, Rb⟩

/-- Solver `_compute` (lines 371-392): the divide-by-zero guard on C, the three
closed-form unknowns, the NaN check (`x != x`, never true in exact
rational arithmetic), the three sign checks in source order, then the
derived quantities. -/
def compute (i : Inputs) : Except String Results :=
  if i.C ≤ 0 then .error msg_divC else
  let B := Bf i
  let E := Ef i
  let F := Ff i
  if B ≠ B ∨ E ≠ E ∨ F ≠ F then .error msg_nanBEF else
  if B ≤ 0 then .error msg_Ble0 else
  if E < 0 then .error msg_Elt0 else
  if F < 0 then .error msg_Flt0 else
  .ok (mkResults i)

/-! ### Export (`_export_excel`, lines 445-479) -/

/-- A spreadsheet cell: header/variable-name text or a numeric value
(`none` = a nan value). -/
inductive Cell where
  | s : String → Cell
  | n : Option ℚ → Cell
deriving DecidableEq, Repr

/-- Row 1 of the export: the eighteen human-readable headers
(lines 447-466). -/
def export_headers : List String :=
  ["原料体系总质量（g）",
   "需添加水玻璃的总质量（g）",
   "水玻璃中二氧化硅百分比（%）",
   "水玻璃中氧化钠百分比（%）",
   "需要添加的氢氧化钠质量（g）",
   "需要添加的水量（g）",
   "新体系中二氧化硅百分比（%）",
   "新体系中氧化钠百分比（%）",
   "新体系液体密度（g/立方厘米）",
   "新体系液体质量（g）",
   "水玻璃模数（验证用）",
   "水玻璃中二氧化硅质量（g）",
   "水玻璃中氧化钠质量（g）",
   "添加的氧化钠质量换算量（g）",
   "新体系的碱激发剂模数",
   "初始碱当量",
   "最终碱当量",
   "固液比"]

/-- Row 2 of the export: the eighteen short variable names
(lines 467-471). -/
def export_varnames : List String :=
  ["m原", "m总", "Wsio2", "Wna2o", "mnaoh", "mh", "W新sio2", "W新na2o",
   "ρ新", "m液新", "M水玻璃", "m_SiO2", "m_Na2O@玻璃", "m_Na2O@NaOH",
   "M新", "N初", "N终", "S/L"]

/-- Row 3 of the export (line 474): the numeric values in the order
A, B, C, D, E, F, G, H, I, J, K, L, M, N, O, P, Q, R. -/
def export_row3 (i : Inputs) (r : Results) : List (Option ℚ) :=
  [some i.A, some r.B, some i.C, some i.D, some r.E, some r.F,
   r.G, r.H, r.I, some r.J, r.K, some r.L, some r.M, some r.N,
   r.O, some r.P, some r.Q, r.R]

/-- Worksheet contents written by `_export_excel`: the three appended
rows (lines 472-475). -/
def export_excel (i : Inputs) (r : Results) : List (List Cell) :=
  [export_headers.map Cell.s,
   export_varnames.map Cell.s,
   (export_row3 i r).map Cell.n]

/-! ### Helper lemmas -/

/-- The worked example of `fill_demo` (lines 512-519) after parsing:
A=200, C=0.30, D=0.135, O=1.5, Q=0.15, R=1.5. -/
def demoInputs : Inputs := ⟨200, 3/10, 27/200, 3/2, 3/20, 3/2⟩

/-- A feasible variant of the worked example: same base material and
targets but solid/liquid ratio R=1, which leaves room for water. -/
def demoFeasible : Inputs := ⟨200, 3/10, 27/200, 3/2, 3/20, 1⟩

/-- In exact rational arithmetic the NaN check of `_compute` (line 377)
never fires, so `compute` reduces to the four remaining guards around
the closed-form unknowns. -/
lemma compute_eq (i : Inputs) :
    compute i =
      if i.C ≤ 0 then .error msg_divC
      else if Bf i ≤ 0 then .error msg_Ble0
      else if Ef i < 0 then .error msg_Elt0
      else if Ff i < 0 then .error msg_Flt0
      else .ok (mkResults i) := by
  rw [compute]
  rcases le_or_lt i.C 0 with h | h
  · rw [if_pos h, if_pos h]
  · rw [if_neg (not_le.mpr h), if_neg (not_le.mpr h), if_neg (by simp)]

/-- Success characterization of the solver: `compute` returns a
`Results` exactly when C is positive and the three unknowns pass their
sign checks, and then the result is the derived-quantity record. -/
lemma compute_ok_iff (i : Inputs) (r : Results) :
    compute i = .ok r ↔
      0 < i.C ∧ 0 < Bf i ∧ 0 ≤ Ef i ∧ 0 ≤ Ff i ∧ r = mkResults i := by
  rw [compute_eq]
  split_ifs with h1 h2 h3 h4
  · simp [not_lt.mpr h1]
  · simp [not_lt.mpr h2]
  · simp [not_le.mpr h3]
  · simp [not_le.mpr h4]
  · constructor
    · intro h
      injection h with h
      exact ⟨not_le.mp h1, not_le.mp h2, not_lt.mp h3, not_lt.mp h4, h.symm⟩
    · intro h
      rw [h.2.2.2.2]

lemma mkResults_B (i : Inputs) : (mkResults i).B = Bf i := rfl

lemma mkResults_E (i : Inputs) : (mkResults i).E = Ef i := rfl

lemma mkResults_F (i : Inputs) : (mkResults i).F = Ff i := rfl

/-! ### C1: the documented worked example -/

/-- C1 counterexample: on the demo inputs A=200, C=0.30, D=0.135, O=1.5,
Q=0.15, R=1.5 the solver does NOT return a `Results`; it fails the
feasibility gate with the F<0 reason, so the claim that this example
solves successfully is false. -/
theorem demo_example_fails :
    compute demoInputs = .error msg_Flt0 := by
  rw [compute]
  rw [if_neg (by norm_num [demoInputs])]
  rw [if_neg (by simp)]
  rw [if_neg (by norm_num [Bf, demoInputs, K62_60])]
  rw [if_neg (by norm_num [Ef, Bf, demoInputs, K62_60, NAOH_TO_NA2O])]
  rw [if_pos (by norm_num [Ff, Ef, Bf, demoInputs, K62_60, NAOH_TO_NA2O])]

/-- C1 amended: the demo field values "200", "30", "13.5", "1.5",
"0.15", "1.5" pass validation and give B = 4500/31 > 0 and
E = 12900/961 > 0, but F = −72800/2883 < 0, so the solver rejects the
worked example with the F<0 infeasibility reason instead of returning a
`Results`. -/
theorem demo_example_rejected :
    collect_inputs "200" "30" "13.5" "1.5" "0.15" "1.5" = .ok demoInputs ∧
    Bf demoInputs = 4500 / 31 ∧
    Ef demoInputs = 12900 / 961 ∧
    Ff demoInputs = -72800 / 2883 ∧
    compute demoInputs = .error msg_Flt0 := by
  have hA : parse_float "200" = some 200 := by
    rw [(show parse_float "200" = some ((200 : ℕ) : ℚ) from rfl)]; norm_num
  have hC : parse_percent "30" = some (3 / 10) := by
    rw [parse_percent, (show pyFloat "30" = some ((30 : ℕ) : ℚ) from rfl)]
    norm_num
  have hD : parse_percent "13.5" = some (27 / 200) := by
    rw [parse_percent,
      (show pyFloat "13.5" = some ((13 : ℕ) + ((5 : ℕ) : ℚ) / 10 ^ 1) from rfl)]
    norm_num
  have hO : parse_float "1.5" = some (3 / 2) := by
    rw [(show parse_float "1.5" = some ((1 : ℕ) + ((5 : ℕ) : ℚ) / 10 ^ 1) from rfl)]
    norm_num
  have hQ : parse_float "0.15" = some (3 / 20) := by
    rw [(show parse_float "0.15" = some ((0 : ℕ) + ((15 : ℕ) : ℚ) / 10 ^ 2) from rfl)]
    norm_num
  have hR : parse_float "1.5" = some (3 / 2) := hO
  have herrs : errsOf "200" "30" "13.5" "1.5" "0.15" "1.5" = [] := by
    rw [errsOf, hA, hC, hD, hO, hQ]
    norm_num [collect_errs, pyLe, pyInUnit, pySumGe1]
  refine ⟨?_, ?_, ?_, ?_, ?_⟩
  · rw [collect_inputs, herrs, hA, hC, hD, hO, hQ]
    exact rfl
  · norm_num [Bf, demoInputs, K62_60]
  · norm_num [Ef, Bf, demoInputs, K62_60, NAOH_TO_NA2O]
  · norm_num [Ff, Ef, Bf, demoInputs, K62_60, NAOH_TO_NA2O]
  · rw [compute]
    rw [if_neg (by norm_num [demoInputs])]
    rw [if_neg (by simp)]
    rw [if_neg (by norm_num [Bf, demoInputs, K62_60])]
    rw [if_neg (by norm_num [Ef, Bf, demoInputs, K62_60, NAOH_TO_NA2O])]
    rw [if_pos (by norm_num [Ff, Ef, Bf, demoInputs, K62_60, NAOH_TO_NA2O])]

/-- The feasible demo variant passes all validation rules. -/
lemma demoFeasible_valid : demoFeasible.valid := by
  norm_num [Inputs.valid, demoFeasible]

/-- The feasible demo variant passes the whole feasibility gate. -/
lemma compute_demoFeasible :
    compute demoFeasible = .ok (mkResults demoFeasible) := by
  rw [compute]
  rw [if_neg (by norm_num [demoFeasible])]
  rw [if_neg (by simp)]
  rw [if_neg (by norm_num [Bf, demoFeasible, K62_60])]
  rw [if_neg (by norm_num [Ef, Bf, demoFeasible, K62_60, NAOH_TO_NA2O])]
  rw [if_neg (by norm_num [Ff, Ef, Bf, demoFeasible, K62_60, NAOH_TO_NA2O])]

lemma naoh_ne : NAOH_TO_NA2O ≠ 0 := by norm_num [NAOH_TO_NA2O]

/-- Total alkali mass after solving: `M + N = Q·A` by construction of E. -/
lemma MN_eq (i : Inputs) : Bf i * i.D + Ef i * NAOH_TO_NA2O = i.Q * i.A := by
  rw [Ef, div_mul_cancel₀ _ naoh_ne]
  ring

/-! ### C2: round-trip of the targets Q and R -/

/-- C2: on every valid `Inputs` accepted by the solver, the
back-calculated final alkali equivalent `Q′ = (M+N)/A` equals the target
Q and the back-calculated solid/liquid ratio `R′ = A/(J+F)` equals the
target R, exactly, in exact rational arithmetic. -/
theorem solve_roundtrip_Q_R (i : Inputs) (hv : i.valid) (r : Results)
    (h : compute i = .ok r) : r.Q = i.Q ∧ r.R = some i.R := by
  obtain ⟨hC, hB, hE, hF, rfl⟩ := (compute_ok_iff i r).mp h
  obtain ⟨hA, -, -, -, -, -, hQ, hR, -⟩ := hv
  have hA' : i.A ≠ 0 := ne_of_gt hA
  constructor
  · show (Bf i * i.D + Ef i * NAOH_TO_NA2O) / i.A = i.Q
    rw [MN_eq, mul_div_assoc, div_self hA', mul_one]
  · show (if 0 < Bf i + Ef i + Ff i then some (i.A / (Bf i + Ef i + Ff i))
        else none) = some i.R
    have hJF : Bf i + Ef i + Ff i = i.A / i.R := by rw [Ff]; ring
    rw [hJF, if_pos (div_pos hA hR)]
    have hR' : i.R ≠ 0 := ne_of_gt hR
    have : i.A / (i.A / i.R) = i.R := by field_simp
    rw [this]

/-- C2 witness at the feasible demo input. -/
theorem solve_roundtrip_Q_R_witness :
    (compute demoFeasible).map (fun r => (r.Q, r.R)) =
      .ok (demoFeasible.Q, some demoFeasible.R) := by
  have h := solve_roundtrip_Q_R demoFeasible demoFeasible_valid
    (mkResults demoFeasible) compute_demoFeasible
  rw [compute_demoFeasible]
  simp only [Except.map]
  rw [h.1, h.2]

/-! ### C3: closed-form expressions for B, E, F -/

/-- C3: on every valid `Inputs` accepted by the solver, the three
primary unknowns are exactly the closed-form expressions of lines
374-376: `B = (O·Q·A)/(C·(62/60))`, then `E = (Q·A − B·D)/(62/80)`,
then `F = A/R − (B + E)`. -/
theorem solver_formulas (i : Inputs) (_hv : i.valid) (r : Results)
    (h : compute i = .ok r) :
    r.B = (i.O * i.Q * i.A) / (i.C * K62_60) ∧
    r.E = (i.Q * i.A - r.B * i.D) / NAOH_TO_NA2O ∧
    r.F = i.A / i.R - (r.B + r.E) := by
  obtain ⟨-, -, -, -, rfl⟩ := (compute_ok_iff i r).mp h
  exact ⟨rfl, rfl, rfl⟩

/-- C3 witness at the feasible demo input: the closed forms evaluate to
B = 4500/31, E = 12900/961, F = 39800/961 there. -/
theorem solver_formulas_witness :
    (compute demoFeasible).map (fun r => (r.B, r.E, r.F)) =
      .ok (4500 / 31, 12900 / 961, 39800 / 961) := by
  have h := solver_formulas demoFeasible demoFeasible_valid
    (mkResults demoFeasible) compute_demoFeasible
  rw [compute_demoFeasible]
  simp only [Except.map]
  rw [h.1, h.2.1, h.2.2, h.1, h.2.1, h.1]
  norm_num [demoFeasible, K62_60, NAOH_TO_NA2O]

/-! ### C10: round-trip of the target modulus O -/

/-- C10: on every valid `Inputs` accepted by the solver, the
back-calculated full-system alkali modulus `O′ = (L/60)/((M+N)/62)`
equals the target modulus O exactly, because `L/60 = O·Q·A/62` and
`M+N = Q·A` by construction of B and E. -/
theorem solve_roundtrip_O (i : Inputs) (hv : i.valid) (r : Results)
    (h : compute i = .ok r) : r.O = some i.O := by
  obtain ⟨hC, hB, hE, hF, rfl⟩ := (compute_ok_iff i r).mp h
  obtain ⟨hA, hC0, -, -, -, -, hQ, -, -⟩ := hv
  show (if 0 < Bf i * i.D + Ef i * NAOH_TO_NA2O then
      some ((Bf i * i.C / 60) / (Bf i * i.D / 62 + Ef i * NAOH_TO_NA2O / 62))
    else none) = some i.O
  rw [(show Bf i * i.D / 62 + Ef i * NAOH_TO_NA2O / 62 =
      (Bf i * i.D + Ef i * NAOH_TO_NA2O) / 62 by ring), MN_eq,
    if_pos (mul_pos hQ hA)]
  have hC' : i.C ≠ 0 := ne_of_gt hC0
  have hQ' : i.Q ≠ 0 := ne_of_gt hQ
  have hA' : i.A ≠ 0 := ne_of_gt hA
  rw [Bf, K62_60]
  congr 1
  field_simp
  ring

/-- C10 witness at the feasible demo input. -/
theorem solve_roundtrip_O_witness :
    (compute demoFeasible).map Results.O = .ok (some demoFeasible.O) := by
  have h := solve_roundtrip_O demoFeasible demoFeasible_valid
    (mkResults demoFeasible) compute_demoFeasible
  rw [compute_demoFeasible]
  simp only [Except.map]
  rw [h]

/-! ### C8: the guarded divisions for G and H -/

/-- C8: the divisions for G and H are guarded by `B+E > 0`, and for
every `Inputs` that passes the feasibility gate the guard's undefined
branch is unreachable: B > 0 and E ≥ 0 hold, hence B+E > 0 and both G
and H are computed by the division. -/
theorem derived_guard (i : Inputs) (r : Results) (h : compute i = .ok r) :
    0 < r.B ∧ 0 ≤ r.E ∧ 0 < r.B + r.E ∧
    r.G = some (r.L / (r.B + r.E)) ∧
    r.H = some ((r.M + r.N) / (r.B + r.E)) := by
  obtain ⟨hC, hB, hE, hF, rfl⟩ := (compute_ok_iff i r).mp h
  have hBE : 0 < Bf i + Ef i := add_pos_of_pos_of_nonneg hB hE
  refine ⟨hB, hE, hBE, ?_, ?_⟩
  · show (if 0 < Bf i + Ef i then some (Bf i * i.C / (Bf i + Ef i))
        else none) = _
    rw [if_pos hBE]
    exact rfl
  · show (if 0 < Bf i + Ef i then
        some ((Bf i * i.D + Ef i * NAOH_TO_NA2O) / (Bf i + Ef i))
      else none) = _
    rw [if_pos hBE]
    exact rfl

/-- C8 witness at the feasible demo input: G and H are both defined. -/
theorem derived_guard_witness :
    (compute demoFeasible).map (fun r => (r.G.isSome, r.H.isSome)) =
      .ok (true, true) := by
  have h := derived_guard demoFeasible (mkResults demoFeasible)
    compute_demoFeasible
  rw [compute_demoFeasible]
  simp only [Except.map]
  rw [h.2.2.2.1, h.2.2.2.2]
  exact rfl

/-! ### C4: the feasibility gate -/

/-- An input on which the solver's E-sign check fires: D large relative
to C makes the silicate alone exceed the alkali target. -/
def demoInfeasibleE : Inputs := ⟨100, 1/10, 1/2, 3/2, 3/20, 1⟩

/-- C4: for every `Inputs` in the solver's domain (R ≠ 0, so the Python
division `A/R` is defined), `compute` either returns a full `Results`
or fails with exactly one of the five reasons; the checks are applied in
the fixed source order (C ≤ 0 first, then — vacuously in exact
arithmetic — the NaN check, then B ≤ 0, then E < 0, then F < 0), the
five messages are pairwise distinct, and no quantity is clamped: a
returned `Results` always carries the un-corrected closed-form B, E, F
with B > 0, E ≥ 0, F ≥ 0. -/
theorem solver_gate (i : Inputs) (_hR : i.R ≠ 0) :
    List.Pairwise (· ≠ ·)
      [msg_divC, msg_nanBEF, msg_Ble0, msg_Elt0, msg_Flt0] ∧
    (∀ e, compute i = .error e →
      e ∈ [msg_divC, msg_nanBEF, msg_Ble0, msg_Elt0, msg_Flt0]) ∧
    (i.C ≤ 0 → compute i = .error msg_divC) ∧
    (0 < i.C → Bf i ≤ 0 → compute i = .error msg_Ble0) ∧
    (0 < i.C → 0 < Bf i → Ef i < 0 → compute i = .error msg_Elt0) ∧
    (0 < i.C → 0 < Bf i → 0 ≤ Ef i → Ff i < 0 →
      compute i = .error msg_Flt0) ∧
    (∀ r, compute i = .ok r →
      0 < r.B ∧ 0 ≤ r.E ∧ 0 ≤ r.F ∧
      r.B = Bf i ∧ r.E = Ef i ∧ r.F = Ff i) := by
  refine ⟨by decide, ?_, ?_, ?_, ?_, ?_, ?_⟩
  · intro e h
    rw [compute_eq] at h
    split_ifs at h <;> injection h with h <;> simp [h]
  · intro h
    rw [compute_eq, if_pos h]
  · intro hC hB
    rw [compute_eq, if_neg (not_le.mpr hC), if_pos hB]
  · intro hC hB hE
    rw [compute_eq, if_neg (not_le.mpr hC), if_neg (not_le.mpr hB),
      if_pos hE]
  · intro hC hB hE hF
    rw [compute_eq, if_neg (not_le.mpr hC), if_neg (not_le.mpr hB),
      if_neg (not_lt.mpr hE), if_pos hF]
  · intro r h
    obtain ⟨-, hB, hE, hF, rfl⟩ := (compute_ok_iff i r).mp h
    exact ⟨hB, hE, hF, rfl, rfl, rfl⟩

/-- C4 witness: on an input whose E-check fires, the solver reports
exactly the E<0 reason. -/
theorem solver_gate_witness :
    compute demoInfeasibleE = .error msg_Elt0 :=
  (solver_gate demoInfeasibleE
      (by norm_num [demoInfeasibleE])).2.2.2.2.1
    (by norm_num [demoInfeasibleE])
    (by norm_num [Bf, demoInfeasibleE, K62_60])
    (by norm_num [Ef, Bf, demoInfeasibleE, K62_60, NAOH_TO_NA2O])

/-! ### C5: the validator collects every violation -/

lemma mem_ite_singleton {c : Prop} [Decidable c] {m m' : String} :
    (m ∈ if c then [m'] else ([] : List String)) ↔ c ∧ m = m' := by
  split_ifs with h <;> simp [h]

/-- Membership in the validator's error list, rule by rule. -/
lemma mem_collect_errs (A C D O Qv R : Option ℚ) (m : String) :
    m ∈ collect_errs A C D O Qv R ↔
      ((A.isNone || C.isNone || D.isNone || O.isNone || Qv.isNone ||
        R.isNone) = true ∧ m = msg_nan) ∨
      (pyLe A 0 = true ∧ m = msg_A) ∨
      ((!pyInUnit C) = true ∧ m = msg_C) ∨
      ((!pyInUnit D) = true ∧ m = msg_D) ∨
      (pyLe O 0 = true ∧ m = msg_O) ∨
      (pyLe Qv 0 = true ∧ m = msg_Q) ∨
      (pyLe R 0 = true ∧ m = msg_R) ∨
      (pySumGe1 C D = true ∧ m = msg_CD) := by
  simp only [collect_errs, List.mem_append, mem_ite_singleton, or_assoc]

/-- If the error list is empty, the nan rule did not fire, so every
parse succeeded. -/
lemma collect_errs_nil_noNone {A C D O Qv R : Option ℚ}
    (h : collect_errs A C D O Qv R = []) :
    (A.isNone || C.isNone || D.isNone || O.isNone || Qv.isNone ||
      R.isNone) = false := by
  cases hx : (A.isNone || C.isNone || D.isNone || O.isNone || Qv.isNone ||
      R.isNone)
  · rfl
  · rw [collect_errs, if_pos hx] at h
    simp at h

/-- On an empty error list the validator returns a typed `Inputs`. -/
lemma collect_inputs_of_errs_nil (sA sC sD sO sQ sR : String)
    (h : errsOf sA sC sD sO sQ sR = []) :
    ∃ i, collect_inputs sA sC sD sO sQ sR = .ok i ∧
      parse_float sA = some i.A ∧ parse_percent sC = some i.C ∧
      parse_percent sD = some i.D ∧ parse_float sO = some i.O ∧
      parse_float sQ = some i.Q ∧ parse_float sR = some i.R := by
  have hb := collect_errs_nil_noNone (by rw [errsOf] at h; exact h)
  obtain ⟨a, ha⟩ : ∃ a, parse_float sA = some a := by
    cases hx : parse_float sA
    · rw [hx] at hb; simp at hb
    · exact ⟨_, rfl⟩
  obtain ⟨c, hc⟩ : ∃ c, parse_percent sC = some c := by
    cases hx : parse_percent sC
    · rw [hx] at hb; simp at hb
    · exact ⟨_, rfl⟩
  obtain ⟨d, hd⟩ : ∃ d, parse_percent sD = some d := by
    cases hx : parse_percent sD
    · rw [hx] at hb; simp at hb
    · exact ⟨_, rfl⟩
  obtain ⟨o, ho⟩ : ∃ o, parse_float sO = some o := by
    cases hx : parse_float sO
    · rw [hx] at hb; simp at hb
    · exact ⟨_, rfl⟩
  obtain ⟨q, hq⟩ : ∃ q, parse_float sQ = some q := by
    cases hx : parse_float sQ
    · rw [hx] at hb; simp at hb
    · exact ⟨_, rfl⟩
  obtain ⟨r, hr⟩ : ∃ r, parse_float sR = some r := by
    cases hx : parse_float sR
    · rw [hx] at hb; simp at hb
    · exact ⟨_, rfl⟩
  refine ⟨⟨a, c, d, o, q, r⟩, ?_, ha, hc, hd, ho, hq, hr⟩
  rw [collect_inputs, h, ha, hc, hd, ho, hq, hr]

/-- On a non-empty error list the validator reports the joined
messages. -/
lemma collect_inputs_of_errs_ne (sA sC sD sO sQ sR : String)
    (h : errsOf sA sC sD sO sQ sR ≠ []) :
    collect_inputs sA sC sD sO sQ sR =
      .error (String.intercalate "；" (errsOf sA sC sD sO sQ sR)) := by
  rw [collect_inputs]
  cases herr : errsOf sA sC sD sO sQ sR with
  | nil => exact absurd herr h
  | cons m ms => exact rfl

/-- C5: for every tuple of six raw text fields, each of the eight
validation rules contributes its message to the error list exactly when
it is violated (no short-circuiting), a typed `Inputs` is returned iff
no rule is violated, and on failure the messages are reported together
as one combined message. -/
theorem validator_collects_all (sA sC sD sO sQ sR : String) :
    (msg_nan ∈ errsOf sA sC sD sO sQ sR ↔
      ((parse_float sA).isNone || (parse_percent sC).isNone ||
       (parse_percent sD).isNone || (parse_float sO).isNone ||
       (parse_float sQ).isNone || (parse_float sR).isNone) = true) ∧
    (msg_A ∈ errsOf sA sC sD sO sQ sR ↔
      pyLe (parse_float sA) 0 = true) ∧
    (msg_C ∈ errsOf sA sC sD sO sQ sR ↔
      (!pyInUnit (parse_percent sC)) = true) ∧
    (msg_D ∈ errsOf sA sC sD sO sQ sR ↔
      (!pyInUnit (parse_percent sD)) = true) ∧
    (msg_O ∈ errsOf sA sC sD sO sQ sR ↔
      pyLe (parse_float sO) 0 = true) ∧
    (msg_Q ∈ errsOf sA sC sD sO sQ sR ↔
      pyLe (parse_float sQ) 0 = true) ∧
    (msg_R ∈ errsOf sA sC sD sO sQ sR ↔
      pyLe (parse_float sR) 0 = true) ∧
    (msg_CD ∈ errsOf sA sC sD sO sQ sR ↔
      pySumGe1 (parse_percent sC) (parse_percent sD) = true) ∧
    ((collect_inputs sA sC sD sO sQ sR).toOption.isSome = true ↔
      errsOf sA sC sD sO sQ sR = []) ∧
    (errsOf sA sC sD sO sQ sR ≠ [] →
      collect_inputs sA sC sD sO sQ sR =
        .error (String.intercalate "；" (errsOf sA sC sD sO sQ sR))) := by
  refine ⟨?_, ?_, ?_, ?_, ?_, ?_, ?_, ?_, ?_,
    collect_inputs_of_errs_ne sA sC sD sO sQ sR⟩
  · rw [errsOf, mem_collect_errs]
    simp [show msg_nan ≠ msg_A by decide, show msg_nan ≠ msg_C by decide,
      show msg_nan ≠ msg_D by decide, show msg_nan ≠ msg_O by decide,
      show msg_nan ≠ msg_Q by decide, show msg_nan ≠ msg_R by decide,
      show msg_nan ≠ msg_CD by decide]
  · rw [errsOf, mem_collect_errs]
    simp [show msg_A ≠ msg_nan by decide, show msg_A ≠ msg_C by decide,
      show msg_A ≠ msg_D by decide, show msg_A ≠ msg_O by decide,
      show msg_A ≠ msg_Q by decide, show msg_A ≠ msg_R by decide,
      show msg_A ≠ msg_CD by decide]
  · rw [errsOf, mem_collect_errs]
    simp [show msg_C ≠ msg_nan by decide, show msg_C ≠ msg_A by decide,
      show msg_C ≠ msg_D by decide, show msg_C ≠ msg_O by decide,
      show msg_C ≠ msg_Q by decide, show msg_C ≠ msg_R by decide,
      show msg_C ≠ msg_CD by decide]
  · rw [errsOf, mem_collect_errs]
    simp [show msg_D ≠ msg_nan by decide, show msg_D ≠ msg_A by decide,
      show msg_D ≠ msg_C by decide, show msg_D ≠ msg_O by decide,
      show msg_D ≠ msg_Q by decide, show msg_D ≠ msg_R by decide,
      show msg_D ≠ msg_CD by decide]
  · rw [errsOf, mem_collect_errs]
    simp [show msg_O ≠ msg_nan by decide, show msg_O ≠ msg_A by decide,
      show msg_O ≠ msg_C by decide, show msg_O ≠ msg_D by decide,
      show msg_O ≠ msg_Q by decide, show msg_O ≠ msg_R by decide,
      show msg_O ≠ msg_CD by decide]
  · rw [errsOf, mem_collect_errs]
    simp [show msg_Q ≠ msg_nan by decide, show msg_Q ≠ msg_A by decide,
      show msg_Q ≠ msg_C by decide, show msg_Q ≠ msg_D by decide,
      show msg_Q ≠ msg_O by decide, show msg_Q ≠ msg_R by decide,
      show msg_Q ≠ msg_CD by decide]
  · rw [errsOf, mem_collect_errs]
    simp [show msg_R ≠ msg_nan by decide, show msg_R ≠ msg_A by decide,
      show msg_R ≠ msg_C by decide, show msg_R ≠ msg_D by decide,
      show msg_R ≠ msg_O by decide, show msg_R ≠ msg_Q by decide,
      show msg_R ≠ msg_CD by decide]
  · rw [errsOf, mem_collect_errs]
    simp [show msg_CD ≠ msg_nan by decide, show msg_CD ≠ msg_A by decide,
      show msg_CD ≠ msg_C by decide, show msg_CD ≠ msg_D by decide,
      show msg_CD ≠ msg_O by decide, show msg_CD ≠ msg_Q by decide,
      show msg_CD ≠ msg_R by decide]
  · constructor
    · intro hs
      by_contra hne
      rw [collect_inputs_of_errs_ne sA sC sD sO sQ sR hne] at hs
      simp [Except.toOption] at hs
    · intro h
      obtain ⟨i, hi, -⟩ := collect_inputs_of_errs_nil sA sC sD sO sQ sR h
      rw [hi]
      rfl

/-- C5 witness: on fields where only the A rule is violated (A = "0"),
the A message is collected. -/
theorem validator_collects_all_witness :
    msg_A ∈ errsOf "0" "30" "13.5" "1.5" "0.15" "1.5" :=
  (validator_collects_all "0" "30" "13.5" "1.5" "0.15" "1.5").2.1.mpr
    (by rw [(show parse_float "0" = some ((0 : ℕ) : ℚ) from rfl)]
        norm_num [pyLe])

/-! ### C6: percentage normalization -/

/-- C6: for every input string parsing to a numeric value v, the
normalized result is v/100 when v > 1 and v unchanged when v ∈ [0,1],
and this happens at parse time, before any range check; in particular
"30" and "0.30" both parse to exactly the fraction 3/10. -/
theorem percent_normalization :
    (∀ s v, pyFloat s = some v → 1 < v →
      parse_percent s = some (v / 100)) ∧
    (∀ s v, pyFloat s = some v → 0 ≤ v → v ≤ 1 →
      parse_percent s = some v) ∧
    parse_percent "30" = some (3 / 10) ∧
    parse_percent "0.30" = some (3 / 10) := by
  refine ⟨?_, ?_, ?_, ?_⟩
  · intro s v h hv
    simp only [parse_percent, h]
    rw [if_pos hv]
  · intro s v h h0 h1
    simp only [parse_percent, h]
    rw [if_neg (not_lt.mpr h1)]
  · rw [parse_percent, (show pyFloat "30" = some ((30 : ℕ) : ℚ) from rfl)]
    norm_num
  · rw [parse_percent,
      (show pyFloat "0.30" = some ((0 : ℕ) + ((30 : ℕ) : ℚ) / 10 ^ 2) from
        rfl)]
    norm_num

/-- C6 witness: "250" is read as a percentage and divided by 100. -/
theorem percent_normalization_witness :
    parse_percent "250" = some (((250 : ℕ) : ℚ) / 100) :=
  percent_normalization.1 "250" ((250 : ℕ) : ℚ) rfl (by norm_num)

/-! ### C7: the C + D < 1 boundary -/

/-- C7: every `Inputs` produced by validation satisfies C + D < 1; the
boundary case C + D = 1 exactly (fields "0.5" and "0.5") is rejected,
while C + D = 0.999999 (fields "0.5" and "0.499999") is accepted. -/
theorem cd_sum_invariant :
    (∀ sA sC sD sO sQ sR i, collect_inputs sA sC sD sO sQ sR = .ok i →
      i.C + i.D < 1) ∧
    (collect_inputs "200" "0.5" "0.5" "1.5" "0.15" "1.5").toOption =
      none ∧
    (collect_inputs "200" "0.5" "0.499999" "1.5" "0.15"
      "1.5").toOption.isSome = true := by
  have hA : parse_float "200" = some 200 := by
    rw [(show parse_float "200" = some ((200 : ℕ) : ℚ) from rfl)]; norm_num
  have hC : parse_percent "0.5" = some (1 / 2) := by
    rw [parse_percent,
      (show pyFloat "0.5" = some ((0 : ℕ) + ((5 : ℕ) : ℚ) / 10 ^ 1) from
        rfl)]
    norm_num
  have hD : parse_percent "0.499999" = some (499999 / 1000000) := by
    rw [parse_percent,
      (show pyFloat "0.499999" =
        some ((0 : ℕ) + ((499999 : ℕ) : ℚ) / 10 ^ 6) from rfl)]
    norm_num
  have hO : parse_float "1.5" = some (3 / 2) := by
    rw [(show parse_float "1.5" = some ((1 : ℕ) + ((5 : ℕ) : ℚ) / 10 ^ 1)
      from rfl)]
    norm_num
  have hQ : parse_float "0.15" = some (3 / 20) := by
    rw [(show parse_float "0.15" = some ((0 : ℕ) + ((15 : ℕ) : ℚ) / 10 ^ 2)
      from rfl)]
    norm_num
  refine ⟨?_, ?_, ?_⟩
  · intro sA sC sD sO sQ sR i h
    cases herr : errsOf sA sC sD sO sQ sR with
    | cons m ms =>
      rw [collect_inputs_of_errs_ne sA sC sD sO sQ sR
        (by rw [herr]; simp)] at h
      simp at h
    | nil =>
      obtain ⟨j, hj, -, hc, hd, -, -, -⟩ :=
        collect_inputs_of_errs_nil sA sC sD sO sQ sR herr
      rw [hj] at h
      injection h with h
      subst h
      have hcd : pySumGe1 (parse_percent sC) (parse_percent sD) = false := by
        by_contra hcd
        simp only [Bool.not_eq_false] at hcd
        have hm : msg_CD ∈ errsOf sA sC sD sO sQ sR := by
          rw [errsOf, mem_collect_errs]
          exact Or.inr (Or.inr (Or.inr (Or.inr (Or.inr (Or.inr (Or.inr
            ⟨hcd, rfl⟩))))))
        rw [herr] at hm
        simp at hm
      rw [hc, hd] at hcd
      simp only [pySumGe1, decide_eq_false_iff_not, not_le] at hcd
      exact hcd
  · have herr : errsOf "200" "0.5" "0.5" "1.5" "0.15" "1.5" = [msg_CD] := by
      rw [errsOf, hA, hC, hO, hQ]
      norm_num [collect_errs, pyLe, pyInUnit, pySumGe1]
    rw [collect_inputs_of_errs_ne "200" "0.5" "0.5" "1.5" "0.15" "1.5"
      (by rw [herr]; simp)]
    rfl
  · have herr : errsOf "200" "0.5" "0.499999" "1.5" "0.15" "1.5" = [] := by
      rw [errsOf, hA, hC, hD, hO, hQ]
      norm_num [collect_errs, pyLe, pyInUnit, pySumGe1]
    obtain ⟨i, hi, -⟩ :=
      collect_inputs_of_errs_nil "200" "0.5" "0.499999" "1.5" "0.15" "1.5"
        herr
    rw [hi]
    rfl

/-- C7 witness: the accepted boundary input indeed carries C + D < 1. -/
theorem cd_sum_invariant_witness :
    (collect_inputs "200" "0.5" "0.499999" "1.5" "0.15"
      "1.5").toOption.map (fun i => decide (i.C + i.D < 1)) ≠
      some false := by
  cases hco : collect_inputs "200" "0.5" "0.499999" "1.5" "0.15" "1.5" with
  | error e =>
    have hs := cd_sum_invariant.2.2
    rw [hco] at hs
    simp [Except.toOption] at hs
  | ok i =>
    have hlt := cd_sum_invariant.1 "200" "0.5" "0.499999" "1.5" "0.15" "1.5"
      i hco
    simp [Except.toOption, hlt]

/-! ### C9: the export table layout -/

/-- C9: for every `Inputs` and `Results`, the exported worksheet has
exactly three rows — the fixed header row, the fixed variable-name row,
then the value row — each of exactly eighteen columns, and the value row
lists the quantities in the fixed order
A, B, C, D, E, F, G, H, I, J, K, L, M, N, O′, P, Q′, R′, aligned
column-for-column with the two fixed text rows. -/
theorem export_layout (i : Inputs) (r : Results) :
    (export_excel i r).length = 3 ∧
    (export_excel i r).map List.length = [18, 18, 18] ∧
    (export_excel i r)[0]? = some (export_headers.map Cell.s) ∧
    (export_excel i r)[1]? = some (export_varnames.map Cell.s) ∧
    (export_excel i r)[2]? = some ((export_row3 i r).map Cell.n) ∧
    export_headers.length = 18 ∧
    export_varnames.length = 18 ∧
    (export_row3 i r).length = 18 ∧
    (export_row3 i r)[0]? = some (some i.A) ∧
    (export_row3 i r)[1]? = some (some r.B) ∧
    (export_row3 i r)[2]? = some (some i.C) ∧
    (export_row3 i r)[3]? = some (some i.D) ∧
    (export_row3 i r)[4]? = some (some r.E) ∧
    (export_row3 i r)[5]? = some (some r.F) ∧
    (export_row3 i r)[6]? = some r.G ∧
    (export_row3 i r)[7]? = some r.H ∧
    (export_row3 i r)[8]? = some r.I ∧
    (export_row3 i r)[9]? = some (some r.J) ∧
    (export_row3 i r)[10]? = some r.K ∧
    (export_row3 i r)[11]? = some (some r.L) ∧
    (export_row3 i r)[12]? = some (some r.M) ∧
    (export_row3 i r)[13]? = some (some r.N) ∧
    (export_row3 i r)[14]? = some r.O ∧
    (export_row3 i r)[15]? = some (some r.P) ∧
    (export_row3 i r)[16]? = some (some r.Q) ∧
    (export_row3 i r)[17]? = some r.R := by
  refine ⟨rfl, rfl, rfl, rfl, rfl, rfl, rfl, rfl, rfl, rfl, rfl, rfl, rfl,
    rfl, rfl, rfl, rfl, rfl, rfl, rfl, rfl, rfl, rfl, rfl, rfl, rfl⟩
